import Mathlib

/-!
Verification of the OECD inflation dashboard (`streamlit_app.py`) against its
specification.  The Python program is shallowly embedded: DataFrames become
lists of row structures, nullable floats become `Option ℚ` (a pandas `NaN`
is `none`), fallible operations return `Except String`.  Line numbers in the
comments refer to `streamlit_app.py`.
-/

/-! ## Numeric values and the comparison ladder (lines 200–215 and 312–328)

Sections 1 and 2 compare two scalars with the same branch ladder:
`pd.isna` on either operand first, then `>`, then `<`, else the
equal case ("very close to" / "similar").
-/

/-- The four outcomes of the scalar-pair comparison ladder. -/
inductive Relation where
  | above
  | below
  | similar
  | incomparable
deriving DecidableEq

/-- The shared comparison ladder: `if pd.isna(a) or pd.isna(b): ... elif a > b:
... elif a < b: ... else: ...` (lines 200–209, 312–319, 321–328). -/
def relation (a b : Option ℚ) : Relation :=
  match a, b with
  | some x, some y =>
      if x > y then Relation.above
      else if x < y then Relation.below
      else Relation.similar
  | _, _ => Relation.incomparable

/-! ## Group rows and the pandas descending sort (lines 448–452, 534–536)

Sections 4 and 5 pick the maximum competitor with
`others.sort_values(col, ascending=False).iloc[0]`.  pandas implements a
descending `sort_values` by reversing the frame, arg-sorting ascending, and
reversing the resulting indexer, with `na_position="last"` appending the NaN
rows; on group lists of this size numpy's introsort is the stable insertion
sort, so the net order is: non-NaN rows descending, first-encountered first
among exact ties, NaN rows at the end in original order.  `sort_values_desc`
below realises exactly that order as a stable insertion sort on the
descending-with-NaN-last comparison `descGEb`. -/

/-- A row of `cluster_timeseries.csv` at a fixed year and category:
`group` is `"Canada"` or `"Cluster N"`, `val` the `avg_cpi` cell. -/
structure GroupRow where
  group : String
  val : Option ℚ
deriving DecidableEq

/-- `descGEb a b` : row value `a` sorts at or before row value `b` in a
descending sort with `na_position="last"`. -/
def descGEb : Option ℚ → Option ℚ → Bool
  | some x, some y => decide (y ≤ x)
  | some _, none => true
  | none, some _ => false
  | none, none => true

/-- Stable insertion of a row into a list sorted by `descGEb` on `key`. -/
def insertDesc (key : α → Option ℚ) (x : α) : List α → List α
  | [] => [x]
  | y :: ys =>
      if descGEb (key x) (key y) then x :: y :: ys
      else y :: insertDesc key x ys

/-- `sort_values(col, ascending=False)` with `na_position="last"`:
stable descending sort of the rows by `key`. -/
def sort_values_desc (key : α → Option ℚ) : List α → List α
  | [] => []
  | x :: xs => insertDesc key x (sort_values_desc key xs)

/-- The first row attaining the running maximum of `key` under `descGEb`
(ties kept at the earlier row).  Helper used to characterise the head of
`sort_values_desc`. -/
def firstArgmax (key : α → Option ℚ) : List α → Option α
  | [] => none
  | x :: xs =>
      match firstArgmax key xs with
      | none => some x
      | some m => if descGEb (key x) (key m) then some x else some m

/-- `.iloc[0]` : first row, `IndexError` on an empty frame. -/
def iloc0 : List α → Except String α
  | [] => Except.error "IndexError: single positional indexer is out-of-bounds"
  | x :: _ => Except.ok x

/-! ## Rows of the four CSV tables (spec section 3) -/

/-- A row of `canada_vs_oecd_timeseries.csv`. -/
structure TSRow where
  year : Int
  category : String
  can_cpi : Option ℚ
  oecd_cpi : Option ℚ
  can_exp_share : Option ℚ
  oecd_exp_share : Option ℚ
  can_exp_growth : Option ℚ
  oecd_exp_growth : Option ℚ
deriving DecidableEq

/-- A row of `cluster_timeseries.csv`. -/
structure CTSRow where
  year : Int
  category : String
  group : String
  avg_cpi : Option ℚ
deriving DecidableEq

/-- A row of `cluster_expenditure.csv`. -/
structure ExpRow where
  year : Int
  category : String
  group : String
  avg_exp_share : Option ℚ
  avg_exp_growth : Option ℚ
deriving DecidableEq

/-- A row of `cluster_results.csv`. -/
structure ClusterRow where
  country : String
  cluster : Int
deriving DecidableEq

/-! ## Dictionaries (lines 31–75) -/

/-- `CATEGORY_LABELS` (lines 31–34). -/
def CATEGORY_LABELS : List (String × String) :=
  [("CP01", "Food & Non-Alcoholic Beverages"),
   ("CP041", "Actual Rentals for Housing")]

/-- `CATEGORY_LABELS.get(cat, cat)` : label lookup with raw-code fallback. -/
def categoryLabel (c : String) : String :=
  (CATEGORY_LABELS.lookup c).getD c

/-- `COUNTRY_NAMES` (lines 36–75). -/
def COUNTRY_NAMES : List (String × String) :=
  [("AUT", "Austria"), ("BEL", "Belgium"), ("BGR", "Bulgaria"),
   ("CAN", "Canada"), ("CHE", "Switzerland"), ("CHL", "Chile"),
   ("COL", "Colombia"), ("CRI", "Costa Rica"), ("CZE", "Czech Republic"),
   ("DEU", "Germany"), ("DNK", "Denmark"), ("EA20", "Euro Area (20 countries)"),
   ("ESP", "Spain"), ("EST", "Estonia"),
   ("EU27_2020", "European Union (27 countries)"), ("FIN", "Finland"),
   ("FRA", "France"), ("GBR", "United Kingdom"), ("GRC", "Greece"),
   ("HRV", "Croatia"), ("HUN", "Hungary"), ("IRL", "Ireland"),
   ("ISL", "Iceland"), ("ITA", "Italy"), ("JPN", "Japan"),
   ("LTU", "Lithuania"), ("LUX", "Luxembourg"), ("LVA", "Latvia"),
   ("MEX", "Mexico"), ("NLD", "Netherlands"), ("NOR", "Norway"),
   ("POL", "Poland"), ("PRT", "Portugal"), ("SVK", "Slovak Republic"),
   ("SVN", "Slovenia"), ("SWE", "Sweden"), ("TUR", "Türkiye"),
   ("USA", "United States")]

/-- `COUNTRY_NAMES.get(c, c)` : country name with raw-code fallback
(line 353 uses `.map(COUNTRY_NAMES).fillna(country)`, line 380 `.get`). -/
def countryName (c : String) : String :=
  (COUNTRY_NAMES.lookup c).getD c

/-! ## Filter stage (lines 132–140 and 415–419) -/

/-- `df_filtered` (lines 136–140): mask `category.isin(selected) &
(year >= year_range[0]) & (year <= year_range[1])` over `canada_oecd`. -/
def df_filtered (canada_oecd : List TSRow) (selected : List String)
    (y0 y1 : Int) : List TSRow :=
  canada_oecd.filter fun r =>
    decide (r.category ∈ selected) && decide (y0 ≤ r.year) && decide (r.year ≤ y1)

/-- `ts_filtered` (lines 415–419): the same mask over `cluster_ts`. -/
def ts_filtered (cluster_ts : List CTSRow) (selected : List String)
    (y0 y1 : Int) : List CTSRow :=
  cluster_ts.filter fun r =>
    decide (r.category ∈ selected) && decide (y0 ≤ r.year) && decide (r.year ≤ y1)

/-- `exp_filtered` (lines 477–481): the same mask over `cluster_exp`. -/
def exp_filtered (cluster_exp : List ExpRow) (selected : List String)
    (y0 y1 : Int) : List ExpRow :=
  cluster_exp.filter fun r =>
    decide (r.category ∈ selected) && decide (y0 ≤ r.year) && decide (r.year ≤ y1)

/-- The view after the sidebar guard: either `st.warning` + `st.stop`
(lines 132–134, nothing below runs) or the filtered frame (lines 136–140). -/
inductive AppRun where
  | stoppedWithWarning (msg : String)
  | rendered (filtered : List TSRow)
deriving DecidableEq

/-- Lines 132–140: the empty-selection guard runs before the filter stage. -/
def app_after_filters (selected : List String) (canada_oecd : List TSRow)
    (y0 y1 : Int) : AppRun :=
  if selected = [] then
    AppRun.stoppedWithWarning "Please select at least one COICOP category in the sidebar."
  else
    AppRun.rendered (df_filtered canada_oecd selected y0 y1)

/-! ## Data loader (lines 18–26) and column presence

`load_data` reads the four CSVs with `pd.read_csv` and returns them.  It
performs no column validation; a column is first touched where a section
subscripts it, and an absent column raises `KeyError` there. -/

/-- A table's shape: its column names and its number of rows. -/
structure DataFrame where
  cols : List String
  nrows : Nat
deriving DecidableEq

/-- Columns of `canada_vs_oecd_timeseries.csv` the app requires (spec section 3). -/
def requiredCanadaCols : List String :=
  ["year", "category", "can_cpi", "oecd_cpi", "can_exp_share",
   "oecd_exp_share", "can_exp_growth", "oecd_exp_growth"]

/-- `load_data` (lines 18–26): returns the four parsed tables unchanged;
no column check of any kind is made. -/
def load_data (dfCanada dfClusters dfClusterTs dfClusterExp : DataFrame) :
    Except String (DataFrame × DataFrame × DataFrame × DataFrame) :=
  Except.ok (dfCanada, dfClusters, dfClusterTs, dfClusterExp)

/-- `df[col]` : column access raises `KeyError` when the column is absent. -/
def getCol (df : DataFrame) (c : String) : Except String Unit :=
  if c ∈ df.cols then Except.ok () else Except.error ("KeyError: " ++ c)

/-- The section-1 chart (lines 177–183): `px.line(df_cat, y=[can_cpi,
oecd_cpi], ...)` touches both CPI columns, the first use of either. -/
def section1_chart_cols (df : DataFrame) : Except String Unit := do
  getCol df "can_cpi"
  getCol df "oecd_cpi"

/-! ## Section 1 (lines 165–217)

The loop body binds only `cat`; no statement of section 1 assigns
`cat_name` (sections 2, 4 and 5 each set `cat_name =
CATEGORY_LABELS.get(cat, cat)` inside their loops).  Every f-string of
section 1 that mentions `cat_name` (lines 172, 182, 202, 212–214, 217)
therefore raises `NameError` when evaluated. -/

/-- Evaluating the name `cat_name` inside section 1. -/
def section1_cat_name : Except String String :=
  Except.error "NameError: name cat_name is not defined"

/-- What the section-1 loop body renders for one category. -/
inductive S1Item where
  | warnNoData (catName : String)
  | chart (catName : String)
  | insightMissing (latestYear : Int) (catName : String)
  | insightCompare (latestYear : Int) (catName : String) (rel : Relation)
      (canVal oecdVal : ℚ)
deriving DecidableEq

/-- `df["year"].max()` over a nonempty frame (`0` is never reached: every
caller is guarded by a nonemptiness check). -/
def col_max_year (year_of : α → Int) : List α → Int
  | [] => 0
  | r :: rs => rs.foldl (fun m x => max m (year_of x)) (year_of r)

/-- The section-1 loop body for one category (lines 169–217). -/
def section1_body (cat : String) (filtered : List TSRow) :
    Except String (List S1Item) := do
  let df_cat := filtered.filter fun r => decide (r.category = cat)
  if df_cat = [] then
    -- line 172: the warning f-string itself mentions cat_name
    let n ← section1_cat_name
    pure [S1Item.warnNoData n]
  else
    -- line 182: the chart title f-string mentions cat_name
    let n ← section1_cat_name
    let latest_year := col_max_year (fun r => r.year) df_cat
    let latest_row ← iloc0 (df_cat.filter fun r => decide (r.year = latest_year))
    match latest_row.can_cpi, latest_row.oecd_cpi with
    | some c, some o =>
        pure [S1Item.chart n,
              S1Item.insightCompare latest_year n
                (relation latest_row.can_cpi latest_row.oecd_cpi) c o]
    | _, _ =>
        pure [S1Item.chart n, S1Item.insightMissing latest_year n]

/-- Section 1 under the sidebar guard: after `st.stop()` (empty selection)
no section code executes, so nothing is rendered. -/
def section1_under (run : AppRun) (cat : String) : Except String (List S1Item) :=
  match run with
  | AppRun.stoppedWithWarning _ => Except.ok []
  | AppRun.rendered filtered => section1_body cat filtered

/-! ## Section 3 (lines 349–407) -/

/-- The blocks section 3 renders, in order. -/
inductive S3Item where
  | countsChart
  | canadaInfo (canadaCluster : Int) (peers : List String)
  | warnCanadaMissing
  | membershipTable (numRows : Nat)
  | infoNote
deriving DecidableEq

/-- Section 3 (lines 349–407): cluster-counts chart, Canada lookup with the
warning fallback, then the membership table and closing note (which render
in either case). -/
def section3_render (clusters : List ClusterRow) : Except String (List S3Item) := do
  let canada_cluster_row := clusters.filter fun r => decide (r.country = "CAN")
  let middle ←
    if canada_cluster_row = [] then
      -- line 393: st.warning("Canada is not present in the clustering results.")
      pure [S3Item.warnCanadaMissing]
    else do
      let r ← iloc0 canada_cluster_row
      let canada_cluster := r.cluster
      let peers := (clusters.filter fun p => decide (p.cluster = canada_cluster)).map
        fun p => countryName p.country ++ " (" ++ p.country ++ ")"
      pure [S3Item.canadaInfo canada_cluster peers]
  pure ([S3Item.countsChart] ++ middle ++
        [S3Item.membershipTable clusters.length, S3Item.infoNote])

/-! ## Section 4 insight (lines 442–464) -/

/-- The insight block of section 4 for one category: either the comparison
sentence (line 454–458, values interpolated with `:.2f` — a `NaN` prints as
`nan`) or the limited-data fallback (lines 461–464). -/
inductive S4Out where
  | insightLine (canVal : Option ℚ) (maxGroup : String) (maxVal : Option ℚ)
  | limitedLine
deriving DecidableEq

/-- Lines 445–464 applied to the latest-year rows of one category: the
fallback fires only when the Canada row or all competitor rows are absent;
`float(can_row["avg_cpi"].iloc[0])` keeps a `NaN` (here `none`), which the
sentence then formats. -/
def section4_insight (latest : List CTSRow) : S4Out :=
  let can_row := latest.filter fun r => decide (r.group = "Canada")
  let others := latest.filter fun r => decide (r.group ≠ "Canada")
  if can_row ≠ [] ∧ others ≠ [] then
    match can_row.head?, (sort_values_desc (fun r => r.avg_cpi) others).head? with
    | some c, some m => S4Out.insightLine c.avg_cpi m.group m.avg_cpi
    | _, _ => S4Out.limitedLine   -- unreachable under the guard
  else S4Out.limitedLine

/-! ## Section 5 (lines 474–556) -/

/-- The insight block of section 5 for one category (lines 526–550). -/
inductive S5Out where
  | insightLine (canShare canGrowth : Option ℚ) (maxShareGroup : String)
      (maxShareVal : Option ℚ)
  | limitedLine
deriving DecidableEq

/-- Lines 527–545: same guard shape as section 4, on the expenditure table;
`float(...)` keeps `NaN` values, which the sentence then formats
(`:.4f` / `:.2f`). -/
def section5_insight (df_cat : List ExpRow) : S5Out :=
  let can_row := df_cat.filter fun r => decide (r.group = "Canada")
  let others := df_cat.filter fun r => decide (r.group ≠ "Canada")
  if can_row ≠ [] ∧ others ≠ [] then
    match can_row.head?, (sort_values_desc (fun r => r.avg_exp_share) others).head? with
    | some c, some m =>
        S5Out.insightLine c.avg_exp_share c.avg_exp_growth m.group m.avg_exp_share
    | _, _ => S5Out.limitedLine   -- unreachable under the guard
  else S5Out.limitedLine

/-- What section 5 renders for one category. -/
inductive S5Item where
  | shareChart (catName : String)
  | growthChart (catName : String)
  | insight (out : S5Out)
deriving DecidableEq

/-- `exp_latest` (lines 486–487): rows of the filtered table at the global
latest year, computed once over all selected categories combined. -/
def exp_latest (filtered : List ExpRow) : List ExpRow :=
  filtered.filter fun r => decide (r.year = col_max_year (fun x => x.year) filtered)

/-- The section-5 loop body for one category (lines 489–550): a category
with no row at the global latest year is skipped by `continue` (line 494)
with no chart, no insight and no message. -/
def section5_cat_items (latestRows : List ExpRow) (cat : String) : List S5Item :=
  let df_cat := latestRows.filter fun r => decide (r.category = cat)
  if df_cat = [] then []
  else
    [S5Item.shareChart (categoryLabel cat),
     S5Item.growthChart (categoryLabel cat),
     S5Item.insight (section5_insight df_cat)]

/-! ## Table effects of the sections (claim on read-only tables)

Sections 1, 2, 4 and 5 only read the loaded tables: every frame they modify
is first detached with `.copy()` (lines 140, 169, 231, 419, 426, 443, 481,
487, 491).  Section 3 instead assigns two new columns directly on the
loaded `clusters` table (lines 352–353). -/

/-- Lines 352–353: `clusters["cluster_str"] = ...` and
`clusters["country_name"] = ...` create two columns on the loaded table;
no row is added or removed. -/
def section3_table_effect (clusters : DataFrame) : DataFrame :=
  { cols := clusters.cols ++ ["cluster_str", "country_name"],
    nrows := clusters.nrows }

/-- Sections 1 and 2 leave `canada_oecd` as loaded (lines 140, 169, 231). -/
def section1_table_effect (t : DataFrame) : DataFrame := t

/-- Section 4 leaves `cluster_ts` as loaded (lines 419, 426, 443). -/
def section4_table_effect (t : DataFrame) : DataFrame := t

/-- Section 5 leaves `cluster_exp` as loaded (lines 481, 487, 491). -/
def section5_table_effect (t : DataFrame) : DataFrame := t

/-! ## Concrete inputs used by counterexamples and witnesses -/

/-- The `canada_vs_oecd` shape with the `can_cpi` column missing. -/
def dfMissingCanCpi : DataFrame :=
  ⟨["year", "category", "oecd_cpi", "can_exp_share", "oecd_exp_share",
    "can_exp_growth", "oecd_exp_growth"], 10⟩

/-- A well-formed `cluster_results` shape. -/
def dfClustersFull : DataFrame := ⟨["country", "cluster"], 38⟩

/-- The scenario of the spec (section 8): category `CP01`, years
2020–2024, `can_cpi = 3.4` and `oecd_cpi = 2.1` in 2024. -/
def scenarioRows : List TSRow :=
  [⟨2020, "CP01", some 3, some 2, none, none, none, none⟩,
   ⟨2021, "CP01", some (34/10), some (21/10), none, none, none, none⟩,
   ⟨2022, "CP01", some 4, some 3, none, none, none, none⟩,
   ⟨2023, "CP01", some (39/10), some (58/10), none, none, none, none⟩,
   ⟨2024, "CP01", some (34/10), some (21/10), none, none, none, none⟩]

/-- Section-4 latest-year rows where Canada's `avg_cpi` is `NaN` and one
cluster row carries a valid value. -/
def s4MissingInput : List CTSRow :=
  [⟨2024, "CP01", "Canada", none⟩,
   ⟨2024, "CP01", "Cluster 0", some 2⟩]

/-- A cluster table without Canada. -/
def clustersNoCanada : List ClusterRow :=
  [⟨"FRA", 0⟩, ⟨"DEU", 0⟩, ⟨"JPN", 1⟩]

/-- Competitor rows with a unique maximum. -/
def demoGroupRows : List GroupRow :=
  [⟨"Cluster 0", some 2⟩, ⟨"Cluster 1", some 3⟩, ⟨"Cluster 2", none⟩]

/-- Expenditure rows where category `"A"` has rows in range but none at the
global latest year 2024. -/
def demoExpRows : List ExpRow :=
  [⟨2023, "A", "Canada", some 1, some 1⟩,
   ⟨2024, "B", "Canada", some 1, some 1⟩,
   ⟨2024, "B", "Cluster 0", some 2, some 1⟩]

/-- A row inside the filter window. -/
def demoTSRow : TSRow := ⟨2024, "CP01", some 1, some 1, none, none, none, none⟩

/-- A cluster-time-series row inside the filter window. -/
def demoCTSRow : CTSRow := ⟨2024, "CP01", "Canada", some 1⟩

/-- A well-formed `cluster_timeseries` shape. -/
def dfClusterTsFull : DataFrame := ⟨["year", "category", "group", "avg_cpi"], 40⟩

/-- A well-formed `cluster_expenditure` shape. -/
def dfClusterExpFull : DataFrame :=
  ⟨["year", "category", "group", "avg_exp_share", "avg_exp_growth"], 40⟩

/-! ## Helper lemmas on the descending sort -/

theorem descGEb_refl (a : Option ℚ) : descGEb a a = true := by
  cases a <;> simp [descGEb]

theorem descGEb_total (a b : Option ℚ) (h : descGEb a b = false) :
    descGEb b a = true := by
  cases a <;> cases b <;> simp [descGEb] at h ⊢
  exact le_of_lt h

theorem descGEb_trans {a b c : Option ℚ} (h1 : descGEb a b = true)
    (h2 : descGEb b c = true) : descGEb a c = true := by
  cases a <;> cases b <;> cases c <;> simp [descGEb] at h1 h2 ⊢
  exact le_trans h2 h1

theorem descGEb_false_ne {a b : Option ℚ} (h : descGEb a b = false) : a ≠ b := by
  intro he
  subst he
  rw [descGEb_refl] at h
  cases h

theorem insertDesc_ne_nil (key : α → Option ℚ) (x : α) (l : List α) :
    insertDesc key x l ≠ [] := by
  cases l with
  | nil => simp [insertDesc]
  | cons y ys =>
      simp only [insertDesc]
      split <;> simp

theorem sort_values_desc_eq_nil_iff (key : α → Option ℚ) (l : List α) :
    sort_values_desc key l = [] ↔ l = [] := by
  cases l with
  | nil => simp [sort_values_desc]
  | cons x xs => simp [sort_values_desc, insertDesc_ne_nil]

theorem head?_insertDesc (key : α → Option ℚ) (x y : α) (ys : List α) :
    (insertDesc key x (y :: ys)).head? =
      some (if descGEb (key x) (key y) then x else y) := by
  by_cases h : descGEb (key x) (key y) <;> simp [insertDesc, h]

theorem firstArgmax_eq_none_iff (key : α → Option ℚ) (l : List α) :
    firstArgmax key l = none ↔ l = [] := by
  cases l with
  | nil => simp [firstArgmax]
  | cons x xs =>
      cases hfa : firstArgmax key xs with
      | none => simp [firstArgmax, hfa]
      | some m =>
          simp only [firstArgmax, hfa]
          split <;> simp

theorem head?_sort_values_desc (key : α → Option ℚ) (l : List α) :
    (sort_values_desc key l).head? = firstArgmax key l := by
  induction l with
  | nil => rfl
  | cons x xs ih =>
      cases hs : sort_values_desc key xs with
      | nil =>
          have hxs : xs = [] := (sort_values_desc_eq_nil_iff key xs).mp hs
          subst hxs
          rfl
      | cons y ys =>
          have h1 : firstArgmax key xs = some y := by
            rw [← ih, hs]
            rfl
          simp only [sort_values_desc]
          rw [hs, head?_insertDesc, firstArgmax, h1]
          by_cases h : descGEb (key x) (key y) <;> simp [h]

theorem firstArgmax_mem (key : α → Option ℚ) {l : List α} {w : α}
    (h : firstArgmax key l = some w) : w ∈ l := by
  induction l with
  | nil => cases h
  | cons x xs ih =>
      cases hm : firstArgmax key xs with
      | none =>
          simp only [firstArgmax, hm] at h
          injection h with h
          subst h
          exact List.mem_cons_self x xs
      | some m =>
          simp only [firstArgmax, hm] at h
          by_cases hc : descGEb (key x) (key m)
          · rw [if_pos hc] at h
            injection h with h
            subst h
            exact List.mem_cons_self x xs
          · rw [if_neg hc] at h
            injection h with h
            subst h
            exact List.mem_cons_of_mem x (ih hm)

theorem firstArgmax_ge (key : α → Option ℚ) (l : List α) :
    ∀ w, firstArgmax key l = some w → ∀ r ∈ l, descGEb (key w) (key r) = true := by
  induction l with
  | nil => intro w h; cases h
  | cons x xs ih =>
      intro w h r hr
      cases hm : firstArgmax key xs with
      | none =>
          have hxs : xs = [] := (firstArgmax_eq_none_iff key xs).mp hm
          simp only [firstArgmax, hm] at h
          injection h with h
          subst h
          subst hxs
          rcases List.mem_cons.mp hr with hr' | hr'
          · subst hr'; exact descGEb_refl _
          · cases hr'
      | some m =>
          simp only [firstArgmax, hm] at h
          by_cases hc : descGEb (key x) (key m)
          · rw [if_pos hc] at h
            injection h with h
            subst h
            rcases List.mem_cons.mp hr with hr' | hr'
            · subst hr'; exact descGEb_refl _
            · exact descGEb_trans hc (ih _ hm r hr')
          · rw [if_neg hc] at h
            injection h with h
            subst h
            rcases List.mem_cons.mp hr with hr' | hr'
            · subst hr'
              exact descGEb_total _ _ (Bool.not_eq_true _ ▸ hc)
            · exact ih _ hm r hr'

theorem firstArgmax_find? (key : α → Option ℚ) {l : List α} {w : α}
    (h : firstArgmax key l = some w) :
    l.find? (fun r => decide (key r = key w)) = some w := by
  induction l with
  | nil => cases h
  | cons x xs ih =>
      cases hm : firstArgmax key xs with
      | none =>
          simp only [firstArgmax, hm] at h
          injection h with h
          subst h
          simp [List.find?]
      | some m =>
          simp only [firstArgmax, hm] at h
          by_cases hc : descGEb (key x) (key m)
          · rw [if_pos hc] at h
            injection h with h
            subst h
            simp [List.find?]
          · rw [if_neg hc] at h
            injection h with h
            subst h
            have hne : key x ≠ key m :=
              descGEb_false_ne (Bool.not_eq_true _ ▸ hc)
            rw [List.find?_cons_of_neg _ (by simp [hne])]
            exact ih hm

/-! ## Helper lemmas on the year maximum -/

theorem foldl_max_le_init (year_of : α → Int) (l : List α) (a : Int) :
    a ≤ l.foldl (fun m x => max m (year_of x)) a := by
  induction l generalizing a with
  | nil => exact le_refl a
  | cons x xs ih =>
      exact le_trans (le_max_left a (year_of x)) (ih (max a (year_of x)))

theorem le_foldl_max (year_of : α → Int) (l : List α) (a : Int) :
    ∀ r ∈ l, year_of r ≤ l.foldl (fun m x => max m (year_of x)) a := by
  induction l generalizing a with
  | nil => intro r hr; cases hr
  | cons x xs ih =>
      intro r hr
      rcases List.mem_cons.mp hr with hr' | hr'
      · subst hr'
        exact le_trans (le_max_right a (year_of r))
          (foldl_max_le_init year_of xs (max a (year_of r)))
      · exact ih (max a (year_of x)) r hr'

theorem foldl_max_attained (year_of : α → Int) (l : List α) (a : Int) :
    l.foldl (fun m x => max m (year_of x)) a = a ∨
      ∃ r ∈ l, l.foldl (fun m x => max m (year_of x)) a = year_of r := by
  induction l generalizing a with
  | nil => left; rfl
  | cons x xs ih =>
      rcases ih (max a (year_of x)) with h | ⟨r, hr, hr2⟩
      · rcases max_choice a (year_of x) with hm | hm
        · left
          rw [List.foldl_cons, h, hm]
        · right
          exact ⟨x, List.mem_cons_self x xs, by rw [List.foldl_cons, h, hm]⟩
      · right
        exact ⟨r, List.mem_cons_of_mem x hr, by rw [List.foldl_cons]; exact hr2⟩

theorem col_max_year_ge (year_of : α → Int) {l : List α} {r : α} (hr : r ∈ l) :
    year_of r ≤ col_max_year year_of l := by
  cases l with
  | nil => cases hr
  | cons x xs =>
      rcases List.mem_cons.mp hr with hr' | hr'
      · subst hr'
        exact foldl_max_le_init year_of xs (year_of r)
      · exact le_foldl_max year_of xs (year_of x) r hr'

theorem col_max_year_attained (year_of : α → Int) {l : List α} (h : l ≠ []) :
    ∃ r ∈ l, year_of r = col_max_year year_of l := by
  cases l with
  | nil => exact absurd rfl h
  | cons x xs =>
      rcases foldl_max_attained year_of xs (year_of x) with h1 | ⟨r, hr, hr2⟩
      · exact ⟨x, List.mem_cons_self x xs, h1.symm⟩
      · exact ⟨r, List.mem_cons_of_mem x hr, hr2.symm⟩

/-! ## Claim theorems -/

/-- Claim C1: for every numeric pair compared in an insight, the derived
relation is `above` iff `a > b`, `below` iff `a < b`, `similar` iff
`a = b`, and `incomparable` iff at least one operand is absent; the four
outcomes are exhaustive and mutually exclusive (the ladder returns exactly
one constructor of `Relation`). -/
theorem C1_relation_cases (a b : Option ℚ) :
    (relation a b = Relation.above ↔ ∃ x y : ℚ, a = some x ∧ b = some y ∧ x > y) ∧
    (relation a b = Relation.below ↔ ∃ x y : ℚ, a = some x ∧ b = some y ∧ x < y) ∧
    (relation a b = Relation.similar ↔ ∃ x y : ℚ, a = some x ∧ b = some y ∧ x = y) ∧
    (relation a b = Relation.incomparable ↔ (a = none ∨ b = none)) := by
  cases a with
  | none => simp [relation]
  | some x =>
      cases b with
      | none => simp [relation]
      | some y =>
          rcases lt_trichotomy x y with h | h | h
          · simp [relation, h, lt_asymm h, h.ne]
          · subst h
            simp [relation, lt_irrefl]
          · simp [relation, h, lt_asymm h, (ne_of_gt h)]

/-- Claim C2: for every nonempty competitor list containing at least one
non-missing value, the selection `others.sort_values(col,
ascending=False).iloc[0]` returns a row carrying the strictly greatest
value (every non-missing value is at most its value `m`), and among rows
with exactly equal maximum values it returns the first-encountered one
(it equals `find?` of the first row whose value is `some m`). -/
theorem C2_max_competitor (rows : List GroupRow)
    (hne : rows ≠ [])
    (hex : ∃ r ∈ rows, r.val.isSome = true) :
    ∃ w, (sort_values_desc (fun r => r.val) rows).head? = some w ∧
      ∃ m : ℚ, w.val = some m ∧
        (∀ r ∈ rows, ∀ v : ℚ, r.val = some v → v ≤ m) ∧
        rows.find? (fun r => decide (r.val = some m)) = some w := by
  obtain ⟨r0, hr0, hv0⟩ := hex
  obtain ⟨v0, hv0'⟩ := Option.isSome_iff_exists.mp hv0
  cases hw : firstArgmax (fun r : GroupRow => r.val) rows with
  | none => exact absurd ((firstArgmax_eq_none_iff _ _).mp hw) hne
  | some w =>
      refine ⟨w, ?_, ?_⟩
      · rw [head?_sort_values_desc]
        exact hw
      · have hge : ∀ r ∈ rows, descGEb w.val r.val = true :=
          firstArgmax_ge (fun r : GroupRow => r.val) rows w hw
        have h1 : descGEb w.val r0.val = true := hge r0 hr0
        cases hwv : w.val with
        | none =>
            rw [hwv, hv0'] at h1
            simp [descGEb] at h1
        | some m =>
            refine ⟨m, rfl, ?_, ?_⟩
            · intro r hr v hv
              have h2 : descGEb w.val r.val = true := hge r hr
              rw [hwv, hv] at h2
              simpa [descGEb] using h2
            · have h3 : rows.find? (fun r => decide (r.val = w.val)) = some w :=
                firstArgmax_find? (fun r : GroupRow => r.val) hw
              simpa [hwv] using h3

/-- Claim C3 (code bug): the claim demands that an absent scalar in any
comparison yields the localized missing-data sentence and is never
formatted as a number; but in section 4 a present Canada row whose
`avg_cpi` is `NaN` flows into the comparison branch, whose sentence
formats the value — the fallback is not taken. -/
theorem C3_section4_formats_missing :
    section4_insight s4MissingInput =
      S4Out.insightLine none "Cluster 0" (some 2) ∧
    S4Out.insightLine none "Cluster 0" (some 2) ≠ S4Out.limitedLine := by
  constructor
  · rfl
  · decide

/-- Claim C4: the filter stage returns exactly the rows whose year lies in
the inclusive range and whose category is selected, both for `df_filtered`
over `canada_oecd` and for `ts_filtered` over `cluster_ts`. -/
theorem C4_filter_exact (canada_oecd : List TSRow) (cluster_ts : List CTSRow)
    (selected : List String) (y0 y1 : Int) (r : TSRow) (s : CTSRow)
    (_hsel : selected ≠ []) :
    (r ∈ df_filtered canada_oecd selected y0 y1 ↔
      r ∈ canada_oecd ∧ r.category ∈ selected ∧ y0 ≤ r.year ∧ r.year ≤ y1) ∧
    (s ∈ ts_filtered cluster_ts selected y0 y1 ↔
      s ∈ cluster_ts ∧ s.category ∈ selected ∧ y0 ≤ s.year ∧ s.year ≤ y1) := by
  constructor <;> simp [df_filtered, ts_filtered, List.mem_filter, and_assoc]

/-- Witness for C4 at a concrete table, category set and year range. -/
theorem C4_filter_exact_witness :
    (["CP01"] ≠ ([] : List String)) ∧
    ((demoTSRow ∈ df_filtered [demoTSRow] ["CP01"] 2020 2024 ↔
        demoTSRow ∈ [demoTSRow] ∧ demoTSRow.category ∈ ["CP01"] ∧
          (2020 : Int) ≤ demoTSRow.year ∧ demoTSRow.year ≤ 2024) ∧
     (demoCTSRow ∈ ts_filtered [demoCTSRow] ["CP01"] 2020 2024 ↔
        demoCTSRow ∈ [demoCTSRow] ∧ demoCTSRow.category ∈ ["CP01"] ∧
          (2020 : Int) ≤ demoCTSRow.year ∧ demoCTSRow.year ≤ 2024)) :=
  ⟨by decide,
   C4_filter_exact [demoTSRow] [demoCTSRow] ["CP01"] 2020 2024 demoTSRow
     demoCTSRow (by decide)⟩

/-- Witness for C2 at a concrete competitor list with a unique maximum. -/
theorem C2_max_competitor_witness :
    demoGroupRows ≠ [] ∧ (∃ r ∈ demoGroupRows, r.val.isSome = true) ∧
    (∃ w, (sort_values_desc (fun r => r.val) demoGroupRows).head? = some w ∧
      ∃ m : ℚ, w.val = some m ∧
        (∀ r ∈ demoGroupRows, ∀ v : ℚ, r.val = some v → v ≤ m) ∧
        demoGroupRows.find? (fun r => decide (r.val = some m)) = some w) :=
  ⟨by decide, by decide,
   C2_max_competitor demoGroupRows (by decide) (by decide)⟩

/-- Claim C5 counterexample: with the `can_cpi` column absent from the main
table, `load_data` still returns the tables successfully — the loading
stage performs no column validation and does not fail fast. -/
theorem C5_no_fail_fast_counterexample :
    "can_cpi" ∈ requiredCanadaCols ∧ "can_cpi" ∉ dfMissingCanCpi.cols ∧
    load_data dfMissingCanCpi dfClustersFull dfClusterTsFull dfClusterExpFull =
      Except.ok (dfMissingCanCpi, dfClustersFull, dfClusterTsFull, dfClusterExpFull) :=
  ⟨by decide, by decide, rfl⟩

/-- Claim C5 amended: the loader performs no column validation and returns
the parsed tables unchanged; a missing required column surfaces only at its
first use — for `can_cpi`, as a `KeyError` inside the section-1 chart. -/
theorem C5_amended_lazy_failure (dfCanada dfClusters dfClusterTs dfClusterExp : DataFrame)
    (h : "can_cpi" ∉ dfCanada.cols) :
    load_data dfCanada dfClusters dfClusterTs dfClusterExp =
      Except.ok (dfCanada, dfClusters, dfClusterTs, dfClusterExp) ∧
    section1_chart_cols dfCanada = Except.error "KeyError: can_cpi" := by
  refine ⟨rfl, ?_⟩
  simp [section1_chart_cols, getCol, h, Bind.bind, Except.bind]

/-- Witness for the amended C5 at a concrete table shape. -/
theorem C5_amended_lazy_failure_witness :
    "can_cpi" ∉ dfMissingCanCpi.cols ∧
    (load_data dfMissingCanCpi dfClustersFull dfClusterTsFull dfClusterExpFull =
       Except.ok (dfMissingCanCpi, dfClustersFull, dfClusterTsFull, dfClusterExpFull) ∧
     section1_chart_cols dfMissingCanCpi = Except.error "KeyError: can_cpi") :=
  ⟨by decide,
   C5_amended_lazy_failure dfMissingCanCpi dfClustersFull dfClusterTsFull
     dfClusterExpFull (by decide)⟩

/-- Claim C6 (code bug): on the spec scenario (category `CP01`, years
2020–2024, `can_cpi = 3.4` and `oecd_cpi = 2.1` in 2024) section 1 raises
`NameError` at its first `cat_name` f-string instead of rendering the
insight; the comparison itself, had it been reached, yields `above`. -/
theorem C6_section1_scenario_nameerror :
    section1_body "CP01" scenarioRows =
      Except.error "NameError: name cat_name is not defined" ∧
    relation (some (34/10 : ℚ)) (some (21/10 : ℚ)) = Relation.above := by
  constructor
  · rfl
  · norm_num [relation]

/-- Claim C7: with zero selected categories the view warns and halts before
the filter stage, and no section code — hence no chart — runs afterwards. -/
theorem C7_empty_selection_halts (selected : List String)
    (canada_oecd : List TSRow) (y0 y1 : Int) (cat : String)
    (h : selected = []) :
    app_after_filters selected canada_oecd y0 y1 =
      AppRun.stoppedWithWarning
        "Please select at least one COICOP category in the sidebar." ∧
    section1_under (app_after_filters selected canada_oecd y0 y1) cat =
      Except.ok [] := by
  subst h
  exact ⟨rfl, rfl⟩

/-- Witness for C7 at a concrete (empty) selection. -/
theorem C7_empty_selection_halts_witness :
    ([] : List String) = [] ∧
    (app_after_filters [] [demoTSRow] 2020 2024 =
       AppRun.stoppedWithWarning
         "Please select at least one COICOP category in the sidebar." ∧
     section1_under (app_after_filters [] [demoTSRow] 2020 2024) "CP01" =
       Except.ok []) :=
  ⟨rfl, C7_empty_selection_halts [] [demoTSRow] 2020 2024 "CP01" rfl⟩

/-- Claim C8: when no row of the cluster table carries country `CAN`,
section 3 renders the counts chart, the "Canada is not present" warning,
the membership table and the closing note, and completes without error. -/
theorem C8_canada_absent_warns (clusters : List ClusterRow)
    (h : ∀ r ∈ clusters, r.country ≠ "CAN") :
    section3_render clusters =
      Except.ok [S3Item.countsChart, S3Item.warnCanadaMissing,
                 S3Item.membershipTable clusters.length, S3Item.infoNote] := by
  have hfil : clusters.filter (fun r => decide (r.country = "CAN")) = [] := by
    rw [List.filter_eq_nil_iff]
    intro a ha
    simp [h a ha]
  simp [section3_render, hfil, Bind.bind, Except.bind, Pure.pure, Except.pure]

/-- Witness for C8 at a concrete cluster table without Canada. -/
theorem C8_canada_absent_warns_witness :
    (∀ r ∈ clustersNoCanada, r.country ≠ "CAN") ∧
    section3_render clustersNoCanada =
      Except.ok [S3Item.countsChart, S3Item.warnCanadaMissing,
                 S3Item.membershipTable clustersNoCanada.length,
                 S3Item.infoNote] :=
  ⟨by decide, C8_canada_absent_warns clustersNoCanada (by decide)⟩

/-- Claim C9 counterexample: the loaded `clusters` table is not unchanged
by every section — section 3 assigns two new columns on it (lines
352–353), so its table after section 3 differs from the loaded one. -/
theorem C9_section3_mutates_counterexample :
    section3_table_effect dfClustersFull ≠ dfClustersFull := by decide

/-- Claim C9 amended: sections 1, 2, 4 and 5 leave the loaded tables
unchanged (they work on `.copy()` frames); section 3 appends exactly the
two derived columns `cluster_str` and `country_name` to the `clusters`
table and neither adds nor removes rows. -/
theorem C9_amended_table_effects (t : DataFrame) :
    (section3_table_effect t).cols = t.cols ++ ["cluster_str", "country_name"] ∧
    (section3_table_effect t).nrows = t.nrows ∧
    section1_table_effect t = t ∧ section4_table_effect t = t ∧
    section5_table_effect t = t :=
  ⟨rfl, rfl, rfl, rfl, rfl⟩

/-- Claim C10: section 5 computes its latest year once, as the maximum year
over the whole filtered expenditure table (all selected categories
combined); a selected category with rows inside the year range but none in
that global maximum year is skipped silently: no chart, no insight, no
message. -/
theorem C10_global_latest_year_skips (cluster_exp : List ExpRow)
    (selected : List String) (y0 y1 : Int) (cat : String)
    (hne : exp_filtered cluster_exp selected y0 y1 ≠ [])
    (_hrows : ∃ r ∈ exp_filtered cluster_exp selected y0 y1, r.category = cat)
    (hmiss : ∀ r ∈ exp_filtered cluster_exp selected y0 y1, r.category = cat →
      r.year ≠ col_max_year (fun x => x.year) (exp_filtered cluster_exp selected y0 y1)) :
    (∀ r ∈ exp_filtered cluster_exp selected y0 y1,
       r.year ≤ col_max_year (fun x => x.year) (exp_filtered cluster_exp selected y0 y1)) ∧
    (∃ r ∈ exp_filtered cluster_exp selected y0 y1,
       r.year = col_max_year (fun x => x.year) (exp_filtered cluster_exp selected y0 y1)) ∧
    section5_cat_items (exp_latest (exp_filtered cluster_exp selected y0 y1)) cat = [] := by
  refine ⟨?_, ?_, ?_⟩
  · intro r hr
    exact col_max_year_ge (fun x : ExpRow => x.year) hr
  · obtain ⟨r, hr, hr2⟩ := col_max_year_attained (fun x : ExpRow => x.year) hne
    exact ⟨r, hr, hr2⟩
  · have hcat : (exp_latest (exp_filtered cluster_exp selected y0 y1)).filter
        (fun r => decide (r.category = cat)) = [] := by
      rw [List.filter_eq_nil_iff]
      intro a ha
      rw [exp_latest, List.mem_filter] at ha
      obtain ⟨ha1, ha2⟩ := ha
      intro hac
      rw [decide_eq_true_eq] at hac ha2
      exact hmiss a ha1 hac ha2
    simp [section5_cat_items, hcat]

/-- Witness for C10: category `"A"` has a 2023 row inside the range but no
row at the global latest year 2024, so section 5 renders nothing for it. -/
theorem C10_global_latest_year_skips_witness :
    exp_filtered demoExpRows ["A", "B"] 2020 2024 ≠ [] ∧
    (∃ r ∈ exp_filtered demoExpRows ["A", "B"] 2020 2024, r.category = "A") ∧
    (∀ r ∈ exp_filtered demoExpRows ["A", "B"] 2020 2024, r.category = "A" →
      r.year ≠ col_max_year (fun x => x.year)
        (exp_filtered demoExpRows ["A", "B"] 2020 2024)) ∧
    ((∀ r ∈ exp_filtered demoExpRows ["A", "B"] 2020 2024,
        r.year ≤ col_max_year (fun x => x.year)
          (exp_filtered demoExpRows ["A", "B"] 2020 2024)) ∧
     (∃ r ∈ exp_filtered demoExpRows ["A", "B"] 2020 2024,
        r.year = col_max_year (fun x => x.year)
          (exp_filtered demoExpRows ["A", "B"] 2020 2024)) ∧
     section5_cat_items
       (exp_latest (exp_filtered demoExpRows ["A", "B"] 2020 2024)) "A" = []) :=
  ⟨by decide, by decide, by decide,
   C10_global_latest_year_skips demoExpRows ["A", "B"] 2020 2024 "A"
     (by decide) (by decide) (by decide)⟩
